import Mathlib

/-!
Verification of the scimesh core against its specification.

Shallow embedding of the Python sources:
- `scimesh/models.py` (Author, Paper, SearchResult, dedupe)
- `scimesh/query/combinators.py` (Query AST)
- `scimesh/providers/openalex.py`, `scopus.py`, `semantic_scholar.py`
- `scimesh/providers/_fulltext_fallback.py`
- `scimesh/search.py` (batch and streaming orchestrator)

Python `None`/empty-string truthiness is made explicit via `Option` and
truthiness helpers.  HTTP transport and JSON parsing are abstracted as
oracle parameters (functions handed to the embedded code); everything
else follows the source line by line.
-/

namespace Scimesh

/-- `scimesh/models.py` `Author`: name with optional affiliation and ORCID. -/
structure Author where
  name : String
  affiliation : Option String := none
  orcid : Option String := none
deriving Repr, DecidableEq

/-- `scimesh/models.py` `Paper`: normalized cross-provider record.
`extras: dict[str, Any]` is modelled as a string-keyed association list
with string values (the `Any` payloads relevant to the embedded code are
strings such as `paper_id`). -/
structure Paper where
  title : String
  authors : List Author
  year : Int
  source : String
  abstract : Option String := none
  doi : Option String := none
  url : Option String := none
  topics : List String := []
  citations_count : Option Int := none
  publication_date : Option (Int × Nat × Nat) := none
  journal : Option String := none
  extras : List (String × String) := []
deriving Repr, DecidableEq

/-- Python's `str.lower()`: character-wise lowercasing (the same mapping
as `String.toLower`, written over the character list so that it reduces
in the kernel). -/
def pyLower (s : String) : String := ⟨s.toList.map Char.toLower⟩

/-- Python truthiness of a `str | None` value: `None` and `""` are falsy. -/
def optStrTruthy : Option String → Bool
  | none => false
  | some s => !s.isEmpty

/-- Python truthiness of an `int | None` value: `None` and `0` are falsy. -/
def optIntTruthy : Option Int → Bool
  | none => false
  | some n => n != 0

/-- `Paper.__eq__` (models.py lines 44-49), in the case where `other` is a
`Paper`: if both DOIs are truthy compare DOIs, else compare lowercased
titles and years. -/
def peq (p q : Paper) : Bool :=
  if optStrTruthy p.doi && optStrTruthy q.doi then p.doi == q.doi
  else pyLower p.title == pyLower q.title && p.year == q.year

/-- The value `Paper.__hash__` (models.py lines 38-42) feeds to Python's
`hash`: the DOI string when the DOI is truthy, else the pair
`(title.lower(), year)`. -/
inductive HashKey where
  | viaDoi (d : String)
  | viaTitleYear (t : String) (y : Int)
deriving Repr, DecidableEq

/-- `Paper.__hash__`: hash by DOI if available, else by lowercase title +
year.  Modelled as the key handed to `hash`. -/
def paperHashKey (p : Paper) : HashKey :=
  if optStrTruthy p.doi then .viaDoi (p.doi.getD "")
  else .viaTitleYear (pyLower p.title) p.year

/-- The dedup key built in `SearchResult.dedupe` (models.py line 66):
`paper.doi if paper.doi else f"{title.lower()}:{year}"`. -/
def dedupKey (p : Paper) : String :=
  if optStrTruthy p.doi then p.doi.getD ""
  else pyLower p.title ++ ":" ++ toString p.year

/-- `scimesh/models.py` `SearchResult`: papers plus per-provider errors and
totals.  Python dicts (insertion-ordered) are modelled as association
lists; exceptions are modelled as their message strings. -/
structure SearchResult where
  papers : List Paper
  errors : List (String × String) := []
  total_by_provider : List (String × Nat) := []
deriving Repr, DecidableEq

/-- The loop of `SearchResult.dedupe` (models.py lines 62-69): walk the
papers, keep a paper iff its dedup key has not been seen, recording seen
keys. -/
def dedupeLoop (seen : List String) : List Paper → List Paper
  | [] => []
  | p :: rest =>
    if seen.contains (dedupKey p) then dedupeLoop seen rest
    else p :: dedupeLoop (dedupKey p :: seen) rest

/-- `SearchResult.dedupe` (models.py lines 60-75): remove duplicate papers
by dedup key, keeping the first occurrence; `errors` and
`total_by_provider` pass through unchanged. -/
def SearchResult.dedupe (r : SearchResult) : SearchResult :=
  { papers := dedupeLoop [] r.papers
    errors := r.errors
    total_by_provider := r.total_by_provider }

/-- Helper for the specification-side reading of deduplication: keep an
element iff no earlier element of the original list (kept or not) is
equivalent to it, `prev` holding all earlier elements. -/
def keepFirstByGo (eqv : Paper → Paper → Bool) (prev : List Paper) : List Paper → List Paper
  | [] => []
  | p :: rest =>
    if prev.any (fun q => eqv q p) then keepFirstByGo eqv (prev ++ [p]) rest
    else p :: keepFirstByGo eqv (prev ++ [p]) rest

/-- Specification-side deduplication: keep exactly those papers not
equivalent (under `eqv`) to any earlier paper, preserving order. -/
def keepFirstBy (eqv : Paper → Paper → Bool) (ps : List Paper) : List Paper :=
  keepFirstByGo eqv [] ps

/-- Key-equality of papers: same dedup key. -/
def keyEq (p q : Paper) : Bool := dedupKey p == dedupKey q

/-! ## Query AST (`scimesh/query/combinators.py`) -/

/-- The Query AST of `scimesh/query/combinators.py`: `Field`, `And`, `Or`,
`Not`, `YearRange` (dataclasses on a common frozen base).
The `CitationRange` variant is not in `src/scimesh/query/combinators.py`
but is imported from that module by `semantic_scholar.py`; it is modelled
from the spec: "`CitationRange(min?, max?)`: inclusive bound on citation
count", both bounds optional. -/
inductive Query where
  | Field (field : String) (value : String)
  | And (left right : Query)
  | Or (left right : Query)
  | Not (operand : Query)
  | YearRange (start stop : Option Int)
  | CitationRange (min max : Option Int)
deriving Repr, DecidableEq

/-- Modelled from the spec: `extract_fulltext_term` (imported by
`_fulltext_fallback.py` from `scimesh.query.combinators` but absent from
`src/scimesh/query/combinators.py`): depth-first search returning the
value of the first `Field(fulltext, …)` leaf encountered (pre-order,
left-to-right through And/Or/Not), or none if absent. -/
def extractFulltextTerm : Query → Option String
  | .Field f v => if f == "fulltext" then some v else none
  | .And l r => (extractFulltextTerm l).orElse (fun _ => extractFulltextTerm r)
  | .Or l r => (extractFulltextTerm l).orElse (fun _ => extractFulltextTerm r)
  | .Not o => extractFulltextTerm o
  | .YearRange _ _ => none
  | .CitationRange _ _ => none

/-- Modelled from the spec: `remove_fulltext` (imported by
`_fulltext_fallback.py` but absent from `src/scimesh/query/combinators.py`):
returns a new tree with all `Field(fulltext, …)` leaves removed; removing
a leaf from `And`/`Or` collapses to the surviving sibling; removing the
sole operand of `Not` or the sole leaf of the whole tree yields none. -/
def removeFulltext : Query → Option Query
  | .Field f v => if f == "fulltext" then none else some (.Field f v)
  | .And l r =>
    match removeFulltext l, removeFulltext r with
    | some l2, some r2 => some (.And l2 r2)
    | some l2, none => some l2
    | none, some r2 => some r2
    | none, none => none
  | .Or l r =>
    match removeFulltext l, removeFulltext r with
    | some l2, some r2 => some (.Or l2 r2)
    | some l2, none => some l2
    | none, some r2 => some r2
    | none, none => none
  | .Not o => (removeFulltext o).map .Not
  | .YearRange s e => some (.YearRange s e)
  | .CitationRange mn mx => some (.CitationRange mn mx)

/-- Modelled from the spec: `has_fulltext` (imported by
`semantic_scholar.py` but absent from `src/scimesh/query/combinators.py`):
true iff any fulltext leaf exists anywhere in the tree. -/
def hasFulltext : Query → Bool
  | .Field f _ => f == "fulltext"
  | .And l r => hasFulltext l || hasFulltext r
  | .Or l r => hasFulltext l || hasFulltext r
  | .Not o => hasFulltext o
  | .YearRange _ _ => false
  | .CitationRange _ _ => false

/-- Modelled from the spec: `extract_citation_range` (imported by
`semantic_scholar.py` but absent from `src/scimesh/query/combinators.py`):
same extract pattern as `extract_fulltext_term`, specialized to
`CitationRange` nodes; returns the (min, max) bounds of the first such
node in pre-order, or none. -/
def extractCitationRange : Query → Option (Option Int × Option Int)
  | .Field _ _ => none
  | .And l r => (extractCitationRange l).orElse (fun _ => extractCitationRange r)
  | .Or l r => (extractCitationRange l).orElse (fun _ => extractCitationRange r)
  | .Not o => extractCitationRange o
  | .YearRange _ _ => none
  | .CitationRange mn mx => some (mn, mx)

/-- Modelled from the spec: `remove_citation_range` (imported by
`semantic_scholar.py` but absent from `src/scimesh/query/combinators.py`):
same remove pattern as `remove_fulltext`, specialized to `CitationRange`
nodes. -/
def removeCitationRange : Query → Option Query
  | .Field f v => some (.Field f v)
  | .And l r =>
    match removeCitationRange l, removeCitationRange r with
    | some l2, some r2 => some (.And l2 r2)
    | some l2, none => some l2
    | none, some r2 => some r2
    | none, none => none
  | .Or l r =>
    match removeCitationRange l, removeCitationRange r with
    | some l2, some r2 => some (.Or l2 r2)
    | some l2, none => some l2
    | none, some r2 => some r2
    | none, none => none
  | .Not o => (removeCitationRange o).map .Not
  | .YearRange s e => some (.YearRange s e)
  | .CitationRange _ _ => none

/-! ## OpenAlex provider (`scimesh/providers/openalex.py`) -/

/-- The search-term fields of `OpenAlex._collect_params`'s first case:
title, abstract, keyword and fulltext leaves become free-text search
terms. -/
def isSearchField (f : String) : Bool :=
  f == "title" || f == "abstract" || f == "keyword" || f == "fulltext"

/-- The `YearRange` case of `OpenAlex._collect_params` (openalex.py lines
58-67): the filter strings appended for a year range, with Python's
truthiness on the bounds (`if s and e` / `elif s` / `elif e`). -/
def yearRangeFilters (s e : Option Int) : List String :=
  if optIntTruthy s && optIntTruthy e then
    if s.getD 0 == e.getD 0 then
      ["publication_year:" ++ toString (s.getD 0)]
    else
      ["publication_year:" ++ toString (s.getD 0) ++ "-" ++ toString (e.getD 0)]
  else if optIntTruthy s then
    ["publication_year:>" ++ toString (s.getD 0 - 1)]
  else if optIntTruthy e then
    ["publication_year:<" ++ toString (e.getD 0 + 1)]
  else []

/-- `OpenAlex._collect_params` (openalex.py lines 37-67), functionally:
returns the (search_terms, filters) lists this node appends.  A `Field`
with a name matching no case (e.g. the leaf of a `CitationRange`-free
variant the module does not import) falls through Python's `match` with
no effect, hence `([], [])`. -/
def collectParams : Query → List String × List String
  | .Field f v =>
    if isSearchField f then ([v], [])
    else if f == "author" then ([], ["raw_author_name.search:" ++ v])
    else if f == "doi" then ([], ["doi:" ++ v])
    else ([], [])
  | .And l r =>
    let (s1, f1) := collectParams l
    let (s2, f2) := collectParams r
    (s1 ++ s2, f1 ++ f2)
  | .Or l r =>
    let (s1, f1) := collectParams l
    let (s2, f2) := collectParams r
    (s1 ++ s2, f1 ++ f2)
  | .Not o =>
    let (_, nf) := collectParams o
    ([], nf.map (fun fl => "!" ++ fl))
  | .YearRange s e => ([], yearRangeFilters s e)
  | .CitationRange _ _ => ([], [])

/-- `OpenAlex._build_params` (openalex.py lines 27-35): join search terms
with spaces and filters with commas. -/
def buildParams (q : Query) : String × String :=
  let (terms, filters) := collectParams q
  (String.intercalate " " terms, String.intercalate "," filters)

/-- Errors raised by the embedded provider code. -/
inductive PyErr where
  | runtimeError
  | valueError
  | typeError
  | httpError
deriving Repr, DecidableEq

/-- An opaque remote record (a JSON dict in Python). -/
structure Work where
  idx : Nat
deriving Repr, DecidableEq

/-- `OpenAlex.search` (openalex.py lines 69-105).  The HTTP client is the
`client` option (None before `__aenter__` / after `__aexit__`); the remote
round-trip is the oracle `http` taking the request's (search, filter,
per_page) parameters; `_parse_work` is the oracle `parse`.  Returns the
outcome and the number of remote requests issued. -/
def openAlexSearch (client : Option Unit)
    (http : String → String → Nat → Option (List Work))
    (parse : Work → Option Paper)
    (q : Query) (maxResults : Nat) : Except PyErr (List Paper) × Nat :=
  match client with
  | none => (.error .runtimeError, 0)
  | some _ =>
    let (searchTerms, filterStr) := buildParams q
    let perPage := min maxResults 200
    match http searchTerms filterStr perPage with
    | none => (.error .httpError, 1)
    | some works => (.ok (works.filterMap parse), 1)

/-! ## Scopus provider (`scimesh/providers/scopus.py`) -/

/-- `Scopus._translate_query` (scopus.py lines 24-57): structural match
producing the Scopus boolean query string; an unsupported node (the
default case) raises `ValueError`. -/
def translateScopus : Query → Except PyErr String
  | .Field f v =>
    if f == "title" then .ok ("TITLE(" ++ v ++ ")")
    else if f == "author" then .ok ("AUTH(" ++ v ++ ")")
    else if f == "abstract" then .ok ("ABS(" ++ v ++ ")")
    else if f == "keyword" then .ok ("KEY(" ++ v ++ ")")
    else if f == "fulltext" then .ok ("ALL(" ++ v ++ ")")
    else if f == "doi" then .ok ("DOI(" ++ v ++ ")")
    else .error .valueError
  | .And l r => do
    let ls ← translateScopus l
    let rs ← translateScopus r
    .ok ("(" ++ ls ++ " AND " ++ rs ++ ")")
  | .Or l r => do
    let ls ← translateScopus l
    let rs ← translateScopus r
    .ok ("(" ++ ls ++ " OR " ++ rs ++ ")")
  | .Not o => do
    let os ← translateScopus o
    .ok ("NOT " ++ os)
  | .YearRange s e =>
    if optIntTruthy s && optIntTruthy e then
      if s.getD 0 == e.getD 0 then .ok ("PUBYEAR = " ++ toString (s.getD 0))
      else .ok ("(PUBYEAR > " ++ toString (s.getD 0 - 1) ++ " AND PUBYEAR < "
        ++ toString (e.getD 0 + 1) ++ ")")
    else if optIntTruthy s then .ok ("PUBYEAR > " ++ toString (s.getD 0 - 1))
    else if optIntTruthy e then .ok ("PUBYEAR < " ++ toString (e.getD 0 + 1))
    else .ok ""
  | .CitationRange _ _ => .error .valueError

/-- `Scopus.search` (scopus.py lines 59-99): client check, API-key check,
query translation, one remote request (oracle `http` over the query string
and count), entry parsing (oracle `parse`).  Returns the outcome and the
number of remote requests issued. -/
def scopusSearch (client : Option Unit) (apiKey : Option String)
    (http : String → Nat → Option (List Work))
    (parse : Work → Option Paper)
    (q : Query) (maxResults : Nat) : Except PyErr (List Paper) × Nat :=
  match client with
  | none => (.error .runtimeError, 0)
  | some _ =>
    if !optStrTruthy apiKey then (.error .valueError, 0)
    else
      match translateScopus q with
      | .error e => (.error e, 0)
      | .ok queryStr =>
        match http queryStr (min maxResults 25) with
        | none => (.error .httpError, 1)
        | some entries => (.ok (entries.filterMap parse), 1)

/-! ## Semantic Scholar provider (`scimesh/providers/semantic_scholar.py`) -/

/-- Python's `a or b` on `int | None` operands (semantic_scholar.py lines
97-98, 110-111): the left value if truthy, else the right value. -/
def orTruthy (a b : Option Int) : Option Int :=
  if optIntTruthy a then a else b

/-- `SemanticScholar._collect_terms` (semantic_scholar.py lines 73-125),
functionally: the list of terms this node appends and the (year_start,
year_end) it returns.  Title values are quoted; Or produces a
`(l | r)` group only when both sides contributed terms; Not prefixes
each collected term with `-`; `CitationRange` contributes nothing. -/
def collectTerms : Query → List String × Option Int × Option Int
  | .Field f v =>
    if f == "title" then (["\"" ++ v ++ "\""], none, none)
    else if f == "author" || f == "abstract" || f == "keyword"
        || f == "fulltext" || f == "doi" then ([v], none, none)
    else ([], none, none)
  | .And l r =>
    let (t1, ys1, ye1) := collectTerms l
    let (t2, ys2, ye2) := collectTerms r
    (t1 ++ t2, orTruthy ys1 ys2, orTruthy ye1 ye2)
  | .Or l r =>
    let (t1, ys1, ye1) := collectTerms l
    let (t2, ys2, ye2) := collectTerms r
    let terms :=
      if !t1.isEmpty && !t2.isEmpty then
        ["(" ++ String.intercalate " " t1 ++ " | " ++ String.intercalate " " t2 ++ ")"]
      else if !t1.isEmpty then t1
      else if !t2.isEmpty then t2
      else []
    (terms, orTruthy ys1 ys2, orTruthy ye1 ye2)
  | .Not o =>
    let (ts, ys, ye) := collectTerms o
    (ts.map (fun t => "-" ++ t), ys, ye)
  | .YearRange s e => ([], s, e)
  | .CitationRange _ _ => ([], none, none)

/-- `SemanticScholar._translate_query` (semantic_scholar.py lines 60-71):
space-join the collected terms; return the year bounds. -/
def translateQuery (q : Query) : String × Option Int × Option Int :=
  let (terms, ys, ye) := collectTerms q
  (String.intercalate " " terms, ys, ye)

/-- `SemanticScholar._extract_author_only` (lines 127-133): the author
name iff the whole query is a single author leaf. -/
def extractAuthorOnly : Query → Option String
  | .Field f v => if f == "author" then some v else none
  | _ => none

/-- `SemanticScholar._extract_author_filter` (lines 135-145): first author
leaf through And/Or (Python `or` on the recursive results, `None`-falsy). -/
def extractAuthorFilter : Query → Option String
  | .Field f v => if f == "author" then some v else none
  | .And l r => (extractAuthorFilter l).orElse (fun _ => extractAuthorFilter r)
  | .Or l r => (extractAuthorFilter l).orElse (fun _ => extractAuthorFilter r)
  | _ => none

/-- `SemanticScholar._extract_title_filter` (lines 147-157): first title
leaf through And/Or. -/
def extractTitleFilter : Query → Option String
  | .Field f v => if f == "title" then some v else none
  | .And l r => (extractTitleFilter l).orElse (fun _ => extractTitleFilter r)
  | .Or l r => (extractTitleFilter l).orElse (fun _ => extractTitleFilter r)
  | _ => none

/-- One page of the Semantic Scholar search response: the reported `total`
and the page's `data` items (raw records, type parameter). -/
structure PageData (α : Type) where
  total : Nat
  data : List α
deriving Repr, DecidableEq

/-- Semantic Scholar page size (`PAGE_SIZE = 100`). -/
def PAGE_SIZE : Nat := 100

/-- Semantic Scholar absolute result cap (`MAX_TOTAL_RESULTS = 1000`). -/
def MAX_TOTAL_RESULTS : Nat := 1000

/-- The `while` loop of `fetch_pages` inside `SemanticScholar._search_api`
(semantic_scholar.py lines 334-356) as a request trace: each iteration at
`offset < MAX_TOTAL_RESULTS` issues one request (oracle `respond`); a
failed fetch (`None`) ends the loop yielding nothing further; a page is
always yielded, then the loop breaks when the advanced offset reaches
`MAX_TOTAL_RESULTS`, reaches the reported `total`, or the page was short
(`len(results) < PAGE_SIZE`).  The `fuel` parameter only bounds the
iteration count for structural recursion; the offset advances by
`PAGE_SIZE` per iteration, so any fuel of at least
`MAX_TOTAL_RESULTS / PAGE_SIZE + 1` is never exhausted. -/
def fetchPagesTraceFuel {α : Type} (respond : Nat → Option (PageData α)) :
    Nat → Nat → List (Nat × Option (PageData α))
  | _, 0 => []
  | offset, fuel + 1 =>
    if offset < MAX_TOTAL_RESULTS then
      match respond offset with
      | none => [(offset, none)]
      | some d =>
        let offset2 := offset + PAGE_SIZE
        if offset2 ≥ MAX_TOTAL_RESULTS || offset2 ≥ d.total || d.data.length < PAGE_SIZE then
          [(offset, some d)]
        else
          (offset, some d) :: fetchPagesTraceFuel respond offset2 fuel
    else []

/-- The request trace of `fetch_pages` started at `offset`, with ample
fuel. -/
def fetchPagesTrace {α : Type} (respond : Nat → Option (PageData α)) (offset : Nat) :
    List (Nat × Option (PageData α)) :=
  fetchPagesTraceFuel respond offset MAX_TOTAL_RESULTS

/-- The pages yielded by `fetch_pages`: every successful response in the
trace. -/
def fetchPages {α : Type} (respond : Nat → Option (PageData α)) : List (PageData α) :=
  (fetchPagesTrace respond 0).filterMap Prod.snd

/-- `passes_max_citations` inside `_search_api` (semantic_scholar.py lines
358-364): when a citation filter with an upper bound exists, the paper
must carry a citation count not exceeding it. -/
def passesMaxCitations (cf : Option (Option Int × Option Int)) (p : Paper) : Bool :=
  match cf with
  | some (_, some mx) =>
    match p.citations_count with
    | some c => decide (c ≤ mx)
    | none => false
  | _ => true

/-- `SemanticScholar._search_api` (semantic_scholar.py lines 295-374):
extract the citation filter, drop `CitationRange` nodes (citation-only
query ⇒ no results, no request), translate, empty query string ⇒ no
results, no request; otherwise paginate (`fetch_pages`), parse each raw
record (oracle `parse` for `_parse_paper`) and keep papers passing the
max-citations post-filter.  Returns the surfaced papers and the number of
remote requests issued. -/
def searchApi {α : Type} (respond : Nat → Option (PageData α))
    (parse : α → Option Paper) (q : Query) : List Paper × Nat :=
  match removeCitationRange q with
  | none => ([], 0)
  | some q2 =>
    let (queryStr, _ys, _ye) := translateQuery q2
    if queryStr == "" then ([], 0)
    else
      let trace := fetchPagesTrace respond 0
      let pages := trace.filterMap Prod.snd
      let items := (pages.map PageData.data).flatten
      let cf := extractCitationRange q
      ((items.filterMap parse).filter (passesMaxCitations cf), trace.length)

/-! ## Fulltext fallback mixin (`scimesh/providers/_fulltext_fallback.py`) -/

/-- The per-paper filter loop of `_search_with_fulltext_filter`
(_fulltext_fallback.py lines 67-76): stop once `count >= max_results`;
a paper's id is its DOI if truthy else `extras["paper_id"]`; yield the
paper iff the id is truthy and among the local index matches. -/
def fulltextFilterLoop (matching : List String) (maxResults : Nat)
    (count : Nat) : List Paper → List Paper
  | [] => []
  | p :: rest =>
    if count ≥ maxResults then []
    else
      let pid := if optStrTruthy p.doi then p.doi else p.extras.lookup "paper_id"
      if optStrTruthy pid && matching.contains (pid.getD "") then
        p :: fulltextFilterLoop matching maxResults (count + 1) rest
      else
        fulltextFilterLoop matching maxResults count rest

/-- Outcome of `_search_with_fulltext_filter`: the yielded papers, whether
the "requires additional filters" warning was logged, and the base query
sent to `_search_api` (none when no remote search was issued). -/
structure FallbackRun where
  papers : List Paper
  warned : Bool
  apiQuery : Option Query
deriving Repr, DecidableEq

/-- `FulltextFallbackMixin._search_with_fulltext_filter`
(_fulltext_fallback.py lines 22-76): extract the fulltext term (falsy
term ⇒ return, nothing yielded); remove fulltext from the query (none ⇒
log a warning and return, never searching remotely); query the local
index (oracle `indexSearch`; no matches ⇒ return); otherwise run
`_search_api` on the base query (oracle `api`) and yield matching papers
up to `maxResults`. -/
def searchWithFulltextFilter (indexSearch : String → List String)
    (api : Query → List Paper) (q : Query) (maxResults : Nat) : FallbackRun :=
  let term := extractFulltextTerm q
  if !optStrTruthy term then ⟨[], false, none⟩
  else
    match removeFulltext q with
    | none => ⟨[], true, none⟩
    | some baseQuery =>
      let matchingIds := indexSearch (term.getD "")
      if matchingIds.isEmpty then ⟨[], false, none⟩
      else
        let results := api baseQuery
        ⟨fulltextFilterLoop matchingIds maxResults 0 results, false, some baseQuery⟩

/-- Python's `needle in hay` on strings: contiguous substring containment,
as a decidable check on the character lists. -/
def strContains (hay needle : String) : Bool :=
  decide (List.IsInfix needle.toList hay.toList)

/-- `SemanticScholar.search` (semantic_scholar.py lines 171-199): client
check first; a query with a fulltext leaf is routed to
`_search_with_fulltext_filter` — which the source calls with one argument
although the mixin requires two, a `TypeError` in Python; an author-only
query goes to the author endpoint (oracle `byAuthor`, abstracting
`_search_by_author`'s HTTP interaction, returning papers and request
count); otherwise `_search_api` runs and local author/title substring
filters are applied.  Note: `search` accepts no `max_results` parameter.
Returns the outcome and the number of remote requests issued. -/
def ssSearch {α : Type} (client : Option Unit)
    (byAuthor : String → List Paper × Nat)
    (respond : Nat → Option (PageData α)) (parse : α → Option Paper)
    (q : Query) : Except PyErr (List Paper) × Nat :=
  match client with
  | none => (.error .runtimeError, 0)
  | some _ =>
    if hasFulltext q then (.error .typeError, 0)
    else
      match extractAuthorOnly q with
      | some a =>
        let (ps, reqs) := byAuthor a
        (.ok ps, reqs)
      | none =>
        let af := extractAuthorFilter q
        let tf := extractTitleFilter q
        let (papers, reqs) := searchApi respond parse q
        let keep := fun (p : Paper) =>
          let authorNames := pyLower (String.intercalate " " (p.authors.map Author.name))
          (!optStrTruthy af || strContains authorNames (pyLower (af.getD ""))) &&
          !(optStrTruthy tf && !strContains (pyLower p.title) (pyLower (tf.getD "")))
        (.ok (papers.filter keep), reqs)

/-! ## Provider lifecycle (`scimesh/providers/base.py`) -/

/-- The mutable state of a `Provider` (base.py lines 18-20): the optional
HTTP client (opened by `__aenter__`, closed and reset by `__aexit__`) and
the API key. -/
structure ProviderState where
  client : Option Unit
  apiKey : Option String
deriving Repr, DecidableEq

/-- `Provider.__aenter__` (base.py lines 36-38): open a fresh HTTP
client. -/
def aenter (s : ProviderState) : ProviderState :=
  { s with client := some () }

/-- `Provider.__aexit__` (base.py lines 40-43): if a client is open, close
it and reset the field to None. -/
def aexit (s : ProviderState) : ProviderState :=
  if s.client.isSome then { s with client := none } else s

/-! ## Search orchestrator (`scimesh/search.py`) -/

/-- The `on_error` policy of `search` (search.py line 15). -/
inductive OnError where
  | fail
  | warn
  | ignore
deriving Repr, DecidableEq

/-- A provider as the batch orchestrator observes it: its name and the
outcome of materializing `provider.search(query, max_results)` inside
`async with provider` — either the full list of papers or the exception
(as its message) caught by `fetch_one`. -/
structure ProviderRun where
  name : String
  outcome : Except String (List Paper)
deriving Repr

/-- `fetch_one` inside `_search_batch` (search.py lines 79-87): a
successful provider yields `(name, papers, None)`; a raising provider
yields `(name, [], e)`. -/
def fetchOne (p : ProviderRun) : String × List Paper × Option String :=
  match p.outcome with
  | .ok ps => (p.name, ps, none)
  | .error e => (p.name, [], some e)

/-- The result-processing loop of `_search_batch` (search.py lines
95-104), accumulating concatenated papers, the errors dict, the totals
dict and the emitted warnings; under `fail` the first error is raised
(returned as `.error`). -/
def batchLoop (onError : OnError)
    (rs : List (String × List Paper × Option String))
    (papers : List Paper) (errors : List (String × String))
    (totals : List (String × Nat)) (warns : List String) :
    Except String (List Paper × List (String × String) × List (String × Nat)) × List String :=
  match rs with
  | [] => (.ok (papers, errors, totals), warns)
  | (name, ps, err) :: rest =>
    match err with
    | some e =>
      if onError = .fail then (.error e, warns)
      else
        let warns2 :=
          if onError = .warn then warns ++ ["Provider " ++ name ++ " failed: " ++ e]
          else warns
        batchLoop onError rest papers (errors ++ [(name, e)]) totals warns2
    | none =>
      batchLoop onError rest (papers ++ ps) errors (totals ++ [(name, ps.length)]) warns

/-- `_search_batch` (search.py lines 69-108): gather every provider's
outcome (`fetch_one`, order-preserving), run the processing loop, and
apply `dedupe()` to the assembled `SearchResult` when requested.  Returns
the outcome (the raised exception under `fail`) together with the
warnings emitted. -/
def searchBatch (onError : OnError) (dedupe : Bool) (providers : List ProviderRun) :
    Except String SearchResult × List String :=
  let results := providers.map fetchOne
  match batchLoop onError results [] [] [] [] with
  | (.error e, warns) => (.error e, warns)
  | (.ok (papers, errors, totals), warns) =>
    let r : SearchResult := ⟨papers, errors, totals⟩
    (.ok (if dedupe then r.dedupe else r), warns)

/-- An item placed on the streaming queue by `_search_stream` (search.py
lines 36-53): a paper, a forwarded exception (under `fail`), or the
completion sentinel (`None`, put when the last provider task finishes). -/
inductive QItem where
  | paper (p : Paper)
  | perr (e : String)
  | done
deriving Repr, DecidableEq

/-- One cooperative interleaving of two providers' queue pushes: `sched`
decides at each step which non-exhausted provider pushes next (an
exhausted schedule or provider drains the rest in order). -/
def interleave (sched : List Bool) : List QItem → List QItem → List QItem
  | [], ys => ys
  | xs, [] => xs
  | x :: xs, y :: ys =>
    match sched with
    | [] => x :: xs ++ y :: ys
    | b :: s =>
      if b then x :: interleave s xs (y :: ys)
      else y :: interleave s (x :: xs) ys

/-- The consumer loop of `_search_stream` (search.py lines 60-66): read
queue items until the `None` sentinel; a forwarded exception is re-raised;
papers are yielded in arrival order.  Returns the observed papers and
whether the sentinel (end of stream) was reached. -/
def consumeQueue : List QItem → Except String (List Paper × Bool)
  | [] => .ok ([], false)
  | .done :: _ => .ok ([], true)
  | .perr e :: _ => .error e
  | .paper p :: rest =>
    match consumeQueue rest with
    | .ok (ps, ended) => .ok (p :: ps, ended)
    | .error e => .error e

/-- The full queue content of `_search_stream` over two error-free
providers: some interleaving of their pushed papers, followed by the
completion sentinel — `None` is enqueued only when `active_tasks`
reaches 0, i.e. after every provider's pushes (search.py lines 50-53). -/
def streamQueue (sched : List Bool) (xs ys : List Paper) : List QItem :=
  interleave sched (xs.map QItem.paper) (ys.map QItem.paper) ++ [QItem.done]

/-! ## Concrete fixtures used by witnesses and counterexamples -/

/-- A paper carrying a DOI. -/
def paperDoiA : Paper :=
  { title := "Alpha", authors := [], year := 2020, source := "s", doi := some "10.1/a" }

/-- A paper with the same DOI as `paperDoiA` but a different title and
year. -/
def paperDoiA2 : Paper :=
  { title := "Beta", authors := [], year := 2021, source := "t", doi := some "10.1/a" }

/-- A paper with no DOI but the same title and year as `paperDoiA`. -/
def paperNoDoi : Paper :=
  { title := "Alpha", authors := [], year := 2020, source := "s" }

/-- A paper with no DOI whose title differs from `paperNoDoi` only in
case. -/
def paperNoDoiUpper : Paper :=
  { title := "ALPHA", authors := [], year := 2020, source := "u" }

/-- A query built purely from OpenAlex search-term leaves (title,
abstract, keyword, fulltext) combined with And/Or — the specification's
"search terms" as opposed to filter clauses. -/
def searchTermOnly : Query → Bool
  | .Field f _ => isSearchField f
  | .And l r => searchTermOnly l && searchTermOnly r
  | .Or l r => searchTermOnly l && searchTermOnly r
  | _ => false

/-! ## Supporting lemmas -/

theorem searchTermOnly_filters_empty : ∀ (q : Query),
    searchTermOnly q = true → (collectParams q).2 = [] := by
  intro q
  induction q with
  | Field f v =>
    intro h
    simp only [searchTermOnly] at h
    simp [collectParams, h]
  | And l r ihl ihr =>
    intro h
    simp only [searchTermOnly, Bool.and_eq_true] at h
    simp [collectParams, ihl h.1, ihr h.2]
  | Or l r ihl ihr =>
    intro h
    simp only [searchTermOnly, Bool.and_eq_true] at h
    simp [collectParams, ihl h.1, ihr h.2]
  | Not o iho => intro h; simp [searchTermOnly] at h
  | YearRange s e => intro h; simp [searchTermOnly] at h
  | CitationRange mn mx => intro h; simp [searchTermOnly] at h

theorem dedupeLoop_eq_keepFirst : ∀ (ps : List Paper) (seen : List String) (prev : List Paper),
    (∀ k, seen.contains k = prev.any (fun q => dedupKey q == k)) →
    dedupeLoop seen ps = keepFirstByGo keyEq prev ps := by
  intro ps
  induction ps with
  | nil => intro seen prev _; rfl
  | cons p rest ih =>
    intro seen prev hinv
    have hk : seen.contains (dedupKey p) = prev.any (fun q => dedupKey q == dedupKey p) :=
      hinv (dedupKey p)
    simp only [dedupeLoop, keepFirstByGo, keyEq, hk]
    by_cases h : (prev.any fun q => dedupKey q == dedupKey p) = true
    · rw [if_pos h, if_pos h]
      apply ih
      intro k
      rw [hinv k, List.any_append]
      simp only [List.any_cons, List.any_nil, Bool.or_false]
      by_cases hkp : (dedupKey p == k) = true
      · have hke : dedupKey p = k := by simpa using hkp
        subst hke
        simp [h]
      · simp [Bool.eq_false_iff.mpr hkp]
    · rw [if_neg h, if_neg h]
      congr 1
      apply ih
      intro k
      rw [List.contains_cons, hinv k, List.any_append]
      simp only [List.any_cons, List.any_nil, Bool.or_false]
      by_cases hkp : (dedupKey p == k) = true
      · have hke : dedupKey p = k := by simpa using hkp
        subst hke
        simp
      · have hpk : ¬ (k == dedupKey p) = true := by
          intro hc
          have hke : k = dedupKey p := by simpa using hc
          exact hkp (by simp [hke])
        simp [Bool.eq_false_iff.mpr hkp, Bool.eq_false_iff.mpr hpk]

theorem dedupeLoop_mem_subset : ∀ (ps : List Paper) (seen : List String) (p : Paper),
    p ∈ dedupeLoop seen ps → p ∈ ps := by
  intro ps
  induction ps with
  | nil => intro seen p h; simp [dedupeLoop] at h
  | cons q rest ih =>
    intro seen p h
    simp only [dedupeLoop] at h
    by_cases hc : seen.contains (dedupKey q) = true
    · rw [if_pos hc] at h
      exact List.mem_cons_of_mem _ (ih _ _ h)
    · rw [if_neg hc] at h
      rcases List.mem_cons.mp h with h1 | h2
      · exact h1 ▸ List.mem_cons_self _ _
      · exact List.mem_cons_of_mem _ (ih _ _ h2)

/-! ## Claims -/

/-- C1: For every pair of Paper records p and q: if both have a non-empty
DOI then p equals q iff their DOIs are equal by case-sensitive exact match
(regardless of differing titles or years); and if both DOIs are
absent/empty then p equals q iff their lowercased titles are equal and
their years are equal. -/
theorem paper_identity_rule (p q : Paper) :
    (optStrTruthy p.doi = true → optStrTruthy q.doi = true →
      (peq p q = true ↔ p.doi = q.doi))
    ∧ (optStrTruthy p.doi = false → optStrTruthy q.doi = false →
      (peq p q = true ↔ pyLower p.title = pyLower q.title ∧ p.year = q.year)) := by
  constructor
  · intro hp hq
    simp [peq, hp, hq]
  · intro hp hq
    simp [peq, hp, hq]

/-- Witness for C1: two papers sharing DOI `10.1/a` with different titles
and years are equal; two DOI-less papers with case-insensitively equal
titles and equal years are equal. -/
theorem paper_identity_rule_witness :
    (peq paperDoiA paperDoiA2 = true ↔ paperDoiA.doi = paperDoiA2.doi)
    ∧ (peq paperNoDoi paperNoDoiUpper = true ↔
        pyLower paperNoDoi.title = pyLower paperNoDoiUpper.title
          ∧ paperNoDoi.year = paperNoDoiUpper.year) :=
  ⟨(paper_identity_rule paperDoiA paperDoiA2).1 (by decide) (by decide),
   (paper_identity_rule paperNoDoi paperNoDoiUpper).2 (by decide) (by decide)⟩

/-- C2 counterexample: `paperDoiA` (DOI present) and `paperNoDoi` (no DOI)
share title and year, so `Paper.__eq__` makes them equal, yet the hash is
derived from the DOI for one and from (lowercased title, year) for the
other — the claimed hash/equality consistency fails on DOI-mixed pairs. -/
theorem paper_hash_inconsistent_mixed_doi :
    peq paperDoiA paperNoDoi = true
      ∧ paperHashKey paperDoiA ≠ paperHashKey paperNoDoi := by decide

/-- C2 (amended): Paper hashing is consistent with Paper equality for
every pair that agrees on DOI presence: if p and q both have a truthy DOI,
or both lack one, then p == q implies the values fed to hash (the DOI when
present, else the pair (lowercased title, year)) coincide. -/
theorem paper_hash_consistent_same_presence (p q : Paper)
    (hpres : optStrTruthy p.doi = optStrTruthy q.doi) (heq : peq p q = true) :
    paperHashKey p = paperHashKey q := by
  by_cases hp : optStrTruthy p.doi = true
  · have hq : optStrTruthy q.doi = true := hpres ▸ hp
    unfold peq at heq
    rw [hp, hq] at heq
    simp only [Bool.and_self, if_true, beq_iff_eq] at heq
    simp [paperHashKey, hp, hq, heq]
  · have hp' : optStrTruthy p.doi = false := Bool.eq_false_iff.mpr hp
    have hq' : optStrTruthy q.doi = false := hpres ▸ hp'
    unfold peq at heq
    rw [hp', hq'] at heq
    simp at heq
    simp [paperHashKey, hp', hq', heq.1, heq.2]

/-- Witness for C2 (amended): two papers sharing DOI `10.1/a` are equal
and their hash derivation keys coincide. -/
theorem paper_hash_consistent_same_presence_witness :
    paperHashKey paperDoiA = paperHashKey paperDoiA2 :=
  paper_hash_consistent_same_presence paperDoiA paperDoiA2 (by decide) (by decide)

/-- C3 counterexample: on `[paperNoDoi, paperDoiA]` — equal under the
Paper identity rule (`Paper.__eq__`: no usable DOI pair, so title/year
match) — `dedupe()` keeps both papers, because its key (DOI when truthy,
else "lowertitle:year") differs between them; so `dedupe` does not filter
by the Paper identity rule. -/
theorem dedupe_differs_from_identity_rule :
    SearchResult.dedupe { papers := [paperNoDoi, paperDoiA] } ≠
      { papers := keepFirstBy peq [paperNoDoi, paperDoiA],
        errors := [], total_by_provider := [] } := by decide

/-- C3 (amended): For every SearchResult r, r.dedupe() returns a
SearchResult whose papers list contains exactly those papers of r whose
dedup key (the DOI when truthy, else the string "lowercased-title:year")
differs from every earlier paper's key in r.papers, preserving
first-occurrence order, and whose errors and total_by_provider equal
those of r unchanged. -/
theorem dedupe_keeps_first_by_key (r : SearchResult) :
    r.dedupe = { papers := keepFirstBy keyEq r.papers,
                 errors := r.errors, total_by_provider := r.total_by_provider } := by
  simp only [SearchResult.dedupe, keepFirstBy]
  congr 1
  apply dedupeLoop_eq_keepFirst
  intro k
  simp

/-- The first error among the providers' outcomes, in provider-list
order. -/
def firstError : List ProviderRun → Option String
  | [] => none
  | p :: rest =>
    match p.outcome with
    | .error e => some e
    | .ok _ => firstError rest

/-- C4: In batch mode with on_error="warn" and providers [A, B] where A's
search raises and B's succeeds: no exception propagates to the caller, a
warning is emitted, the returned SearchResult's errors maps A's name to
A's error, its papers contains only B's papers (A contributes zero
papers), and total_by_provider contains an entry only for B. -/
theorem batch_warn_records_error_keeps_sibling
    (aName e bName : String) (bPapers : List Paper) (dedupe : Bool) :
    searchBatch .warn dedupe [⟨aName, .error e⟩, ⟨bName, .ok bPapers⟩] =
      (.ok { papers := if dedupe then dedupeLoop [] bPapers else bPapers,
             errors := [(aName, e)],
             total_by_provider := [(bName, bPapers.length)] },
       ["Provider " ++ aName ++ " failed: " ++ e])
    ∧ ∀ p ∈ (if dedupe then dedupeLoop [] bPapers else bPapers), p ∈ bPapers := by
  constructor
  · cases dedupe with
    | false => rfl
    | true => rfl
  · intro p hp
    cases dedupe with
    | false => simpa using hp
    | true => exact dedupeLoop_mem_subset bPapers [] p (by simpa using hp)

/-- Witness for C4: provider "a" raising "boom" alongside provider "b"
returning one paper — the paper observed in the result indeed comes from
"b". -/
theorem batch_warn_records_error_keeps_sibling_witness :
    (searchBatch .warn false [⟨"a", .error "boom"⟩, ⟨"b", .ok [paperDoiA]⟩] =
      (.ok { papers := [paperDoiA], errors := [("a", "boom")],
             total_by_provider := [("b", 1)] },
       ["Provider a failed: boom"]))
    ∧ paperDoiA ∈ [paperDoiA] :=
  ⟨(batch_warn_records_error_keeps_sibling "a" "boom" "b" [paperDoiA] false).1,
   (batch_warn_records_error_keeps_sibling "a" "boom" "b" [paperDoiA] false).2
     paperDoiA (by simp)⟩

theorem batchLoop_fail_first_error :
    ∀ (ps : List ProviderRun) (papers : List Paper) (errors : List (String × String))
      (totals : List (String × Nat)) (warns : List String) (e : String),
    firstError ps = some e →
    batchLoop .fail (ps.map fetchOne) papers errors totals warns = (.error e, warns) := by
  intro ps
  induction ps with
  | nil => intro papers errors totals warns e h; simp [firstError] at h
  | cons p rest ih =>
    intro papers errors totals warns e h
    cases hout : p.outcome with
    | error e2 =>
      rw [firstError, hout] at h
      cases h
      simp [batchLoop, fetchOne, hout]
    | ok lst =>
      rw [firstError, hout] at h
      simp only [List.map_cons, batchLoop, fetchOne, hout]
      exact ih _ _ _ _ _ h

/-- C5: In batch mode with on_error="fail", if any provider's search
raises, the whole search call raises that provider's exception (the first
provider error, with other providers' already-resolved partial results
discarded) and no SearchResult is returned to the caller. -/
theorem batch_fail_raises_first_error
    (providers : List ProviderRun) (dedupe : Bool) (e : String)
    (h : firstError providers = some e) :
    searchBatch .fail dedupe providers = (.error e, []) := by
  unfold searchBatch
  dsimp only
  rw [batchLoop_fail_first_error providers [] [] [] [] e h]

/-- Witness for C5: with provider "b" succeeding first and provider "a"
raising "boom", the whole batch raises "boom" and no result is built. -/
theorem batch_fail_raises_first_error_witness :
    firstError [⟨"b", .ok [paperDoiA]⟩, ⟨"a", .error "boom"⟩] = some "boom"
    ∧ searchBatch .fail true [⟨"b", .ok [paperDoiA]⟩, ⟨"a", .error "boom"⟩] =
        (.error "boom", []) :=
  ⟨by decide,
   batch_fail_raises_first_error [⟨"b", .ok [paperDoiA]⟩, ⟨"a", .error "boom"⟩]
     true "boom" (by decide)⟩

/-- A Semantic Scholar server holding 1000 matching records: every
request is answered with a full page of 100 items and `total = 1000`. -/
def fullPagesOracle : Nat → Option (PageData Unit) :=
  fun _ => some ⟨1000, List.replicate 100 ()⟩

set_option maxRecDepth 100000 in
/-- C6 (code bug): the pagination loop of `fetch_pages` has no stopping
condition tied to the caller's requested `max_results` —
`SemanticScholar.search` does not even accept a `max_results` parameter
(contradicting `Provider.search`'s declared signature and
`_search_batch`/`_search_stream`, which call
`provider.search(query, max_results)`).  Against a server holding 1000
matching records it fetches all ten pages, surfacing 1000 raw records,
regardless of any caller limit such as 10. -/
theorem fetch_pages_ignores_caller_limit :
    (fetchPages fullPagesOracle).length = 10
    ∧ ((fetchPages fullPagesOracle).map PageData.data).flatten.length = 1000 := by
  constructor
  · rfl
  · rfl

/-- C7: In the OpenAlex translator, a Not node contributes negations only
of filter clauses: its search-term component is always empty and its
filter component is exactly the operand's filters each prefixed with `!`;
in particular a query built purely from search-term leaves (title,
abstract, keyword, fulltext) under a Not contributes nothing at all to
either component, rather than raising an error. -/
theorem openalex_not_negates_only_filters :
    (∀ o : Query, collectParams (.Not o) =
      ([], (collectParams o).2.map (fun fl => "!" ++ fl)))
    ∧ ∀ o : Query, searchTermOnly o = true → collectParams (.Not o) = ([], []) := by
  constructor
  · intro o
    simp only [collectParams]
  · intro o h
    simp only [collectParams, searchTermOnly_filters_empty o h, List.map_nil]

/-- Witness for C7: a negated title leaf — a search-term leaf under Not —
contributes neither search terms nor filters. -/
theorem openalex_not_negates_only_filters_witness :
    searchTermOnly (Query.Field "title" "x") = true
    ∧ collectParams (.Not (.Field "title" "x")) = ([], []) :=
  ⟨by decide,
   openalex_not_negates_only_filters.2 (Query.Field "title" "x") (by decide)⟩

/-- C8 counterexample: for the query `ALL("")` — a sole fulltext leaf with
an empty term — `remove_fulltext` collapses the query to nothing, and the
fulltext-fallback mixin yields no results and issues no remote search,
but logs no warning (it returns at the `if not term` check, before
removal is attempted), contradicting the claim that a warning is logged
in the fulltext-fallback case. -/
theorem fallback_collapse_without_warning :
    removeFulltext (.Field "fulltext" "") = none
    ∧ (searchWithFulltextFilter (fun _ => []) (fun _ => [])
        (.Field "fulltext" "") 10).warned = false := by decide

/-- C8 (amended): When removing the locally-handled filter kind collapses
the query to nothing (remove_fulltext or remove_citation_range returns
none), the provider yields no results and never issues a remote search
with an empty filter; in the fulltext-fallback case a warning is logged
exactly when the extracted fulltext term is non-empty (with an empty term
the mixin returns silently before attempting removal). -/
theorem collapse_to_none_never_searches {α : Type}
    (q : Query) (indexSearch : String → List String) (api : Query → List Paper)
    (maxResults : Nat) (respond : Nat → Option (PageData α)) (parse : α → Option Paper) :
    (removeFulltext q = none →
      (searchWithFulltextFilter indexSearch api q maxResults).papers = []
      ∧ (searchWithFulltextFilter indexSearch api q maxResults).apiQuery = none
      ∧ (searchWithFulltextFilter indexSearch api q maxResults).warned =
          optStrTruthy (extractFulltextTerm q))
    ∧ (removeCitationRange q = none → searchApi respond parse q = ([], 0)) := by
  constructor
  · intro hrem
    unfold searchWithFulltextFilter
    cases ht : optStrTruthy (extractFulltextTerm q) with
    | false => simp [ht]
    | true => simp [ht, hrem]
  · intro hrem
    unfold searchApi
    rw [hrem]

/-- Witness for C8 (amended): `ALL(x)` collapses under remove_fulltext —
no papers, no remote query, warning logged (term non-empty); a bare
citation-range query collapses under remove_citation_range — the API
search returns nothing and issues zero requests. -/
theorem collapse_to_none_never_searches_witness :
    ((searchWithFulltextFilter (fun _ => ["id1"]) (fun _ => [paperDoiA])
        (.Field "fulltext" "x") 10).papers = []
      ∧ (searchWithFulltextFilter (fun _ => ["id1"]) (fun _ => [paperDoiA])
          (.Field "fulltext" "x") 10).apiQuery = none
      ∧ (searchWithFulltextFilter (fun _ => ["id1"]) (fun _ => [paperDoiA])
          (.Field "fulltext" "x") 10).warned =
          optStrTruthy (extractFulltextTerm (.Field "fulltext" "x")))
    ∧ searchApi fullPagesOracle (fun _ => some paperDoiA)
        (.CitationRange (some 5) none) = ([], 0) :=
  ⟨(collapse_to_none_never_searches (.Field "fulltext" "x") (fun _ => ["id1"])
      (fun _ => [paperDoiA]) 10 fullPagesOracle (fun _ => some paperDoiA)).1 (by decide),
   (collapse_to_none_never_searches (.CitationRange (some 5) none) (fun _ => ["id1"])
      (fun _ => [paperDoiA]) 10 fullPagesOracle (fun _ => some paperDoiA)).2 (by decide)⟩

theorem interleave_of_papers :
    ∀ (sched : List Bool) (xs ys : List Paper),
    ∃ zs : List Paper,
      interleave sched (xs.map QItem.paper) (ys.map QItem.paper) = zs.map QItem.paper
      ∧ zs.length = xs.length + ys.length := by
  intro sched
  induction sched with
  | nil =>
    intro xs ys
    cases xs with
    | nil => exact ⟨ys, by simp [interleave], by simp⟩
    | cons x xs2 =>
      cases ys with
      | nil => exact ⟨x :: xs2, by simp [interleave], by simp⟩
      | cons y ys2 =>
        refine ⟨x :: xs2 ++ y :: ys2, ?_, by simp; omega⟩
        simp [interleave]
  | cons b s ih =>
    intro xs ys
    cases xs with
    | nil => exact ⟨ys, by simp [interleave], by simp⟩
    | cons x xs2 =>
      cases ys with
      | nil => exact ⟨x :: xs2, by simp [interleave], by simp⟩
      | cons y ys2 =>
        cases b with
        | true =>
          obtain ⟨zs, hz, hlen⟩ := ih xs2 (y :: ys2)
          refine ⟨x :: zs, ?_, by simp [hlen]; omega⟩
          simpa [interleave] using congrArg (QItem.paper x :: ·) hz
        | false =>
          obtain ⟨zs, hz, hlen⟩ := ih (x :: xs2) ys2
          refine ⟨y :: zs, ?_, by simp at hlen ⊢; omega⟩
          simpa [interleave] using congrArg (QItem.paper y :: ·) hz

theorem consumeQueue_papers (zs : List Paper) :
    consumeQueue (zs.map QItem.paper ++ [QItem.done]) = .ok (zs, true) := by
  induction zs with
  | nil => rfl
  | cons z rest ih => simp [consumeQueue, ih]

/-- C9: In streaming mode over two providers that yield 3 and 2 papers
respectively with no errors, the caller observes exactly 5 Paper items in
total (in some interleaving), after which the stream ends; end-of-stream
is signaled (the sentinel follows every provider's pushes) once every
provider task has finished. -/
theorem stream_observes_all_five
    (sched : List Bool) (xs ys : List Paper)
    (hx : xs.length = 3) (hy : ys.length = 2) :
    ∃ observed : List Paper,
      consumeQueue (streamQueue sched xs ys) = .ok (observed, true)
      ∧ observed.length = 5 := by
  obtain ⟨zs, hz, hlen⟩ := interleave_of_papers sched xs ys
  refine ⟨zs, ?_, by omega⟩
  rw [streamQueue, hz]
  exact consumeQueue_papers zs

/-- Witness for C9: a concrete schedule over concrete 3- and 2-paper
providers observes five papers and then end of stream. -/
theorem stream_observes_all_five_witness :
    ∃ observed : List Paper,
      consumeQueue (streamQueue [true, false, false, true]
        [paperDoiA, paperDoiA2, paperNoDoi] [paperNoDoiUpper, paperDoiA]) =
        .ok (observed, true)
      ∧ observed.length = 5 :=
  stream_observes_all_five [true, false, false, true]
    [paperDoiA, paperDoiA2, paperNoDoi] [paperNoDoiUpper, paperDoiA]
    (by decide) (by decide)

/-- C10: Calling a provider's search when the underlying HTTP client has
not been opened (client is None, as before `__aenter__` or after
`__aexit__`, which always resets the client to None) yields a
RuntimeError with zero remote requests issued, for every query,
max_results and transport oracle, on all three providers. -/
theorem search_without_client_raises {α : Type} :
    (∀ (http : String → String → Nat → Option (List Work)) (parse : Work → Option Paper)
        (q : Query) (maxResults : Nat),
      openAlexSearch none http parse q maxResults = (.error .runtimeError, 0))
    ∧ (∀ (apiKey : Option String) (http : String → Nat → Option (List Work))
        (parse : Work → Option Paper) (q : Query) (maxResults : Nat),
      scopusSearch none apiKey http parse q maxResults = (.error .runtimeError, 0))
    ∧ (∀ (byAuthor : String → List Paper × Nat) (respond : Nat → Option (PageData α))
        (parse : α → Option Paper) (q : Query),
      ssSearch none byAuthor respond parse q = (.error .runtimeError, 0))
    ∧ (∀ s : ProviderState, (aexit s).client = none)
    ∧ (∀ s : ProviderState, (aenter s).client = some ()) := by
  refine ⟨fun _ _ _ _ => rfl, fun _ _ _ _ _ => rfl, fun _ _ _ _ => rfl, ?_, fun _ => rfl⟩
  intro s
  cases h : s.client with
  | none => simp [aexit, h]
  | some c => simp [aexit, h]

end Scimesh
